import Mathlib

/-!
Verification of the category-page filter core of the lytemaster repository.

The source of truth is src/src/app/products/category/page.jsx: a client
component holding two pieces of state, a `filters` object initialised to the
empty object and never written afterwards, and a `showFilters` boolean flipped
by `toggleFilters`.  The grid maps unconditionally over the hard-coded
`lightingProducts` list; the checkbox inputs carry no change handler.

The specification additionally describes a Filter State Controller with
`toggleOption` and `visibleProducts` operations that do not appear in the
source; those are modelled here from the words of the spec and are marked as
such in their doc comments.
-/

namespace Lytemaster

/-- A catalog entry, from `lightingProducts` in page.jsx: a name and an image
URL. -/
structure Product where
  name : String
  image : String
deriving DecidableEq, Repr

/-- The hard-coded catalog of page.jsx lines 7-15.  Every entry shares the
same placeholder image URL; we abbreviate it here. -/
def placeholderImage : String :=
  "https://png.pngtree.com/element_pic/16/12/06/5d79b5dd066400e188713f7dd417a3f4.png"

/-- The seven products of `lightingProducts`, in source order. -/
def lightingProducts : List Product :=
  [⟨"Spot Down Series", placeholderImage⟩,
   ⟨"Tracks System", placeholderImage⟩,
   ⟨"Modular Series", placeholderImage⟩,
   ⟨"Panel & General Lighting", placeholderImage⟩,
   ⟨"Pendant Series", placeholderImage⟩,
   ⟨"Ceiling Surface Series", placeholderImage⟩,
   ⟨"Profile Series", placeholderImage⟩]

/-- A filter group: a heading label and its ordered option strings, as
rendered by both filter surfaces of page.jsx (the mobile drawer, lines 44-63,
and the desktop sidebar, lines 67-88, list identical groups). -/
structure FilterGroup where
  label : String
  options : List String
deriving DecidableEq, Repr

/-- Options under the "Mounting type" heading (page.jsx line 45). -/
def mountingTypeOptions : List String :=
  ["Ceiling recessed", "Recessed Suspended", "Surface Mounted", "Suspended",
   "Surface Suspended Recessed"]

/-- Options under the "Light distribution" heading (page.jsx line 52). -/
def lightDistributionOptions : List String :=
  ["A10-A32 wide 100% direct", "A40-A44 medium 100% direct",
   "A50-A80 narrow 100% direct", "B41-B63 narrow direct"]

/-- Options under the "Lamp Type" heading (page.jsx line 59). -/
def lampTypeOptions : List String := ["LED", "CONLGB"]

/-- The three filter groups rendered by the page. -/
def filterGroups : List FilterGroup :=
  [⟨"Mounting type", mountingTypeOptions⟩,
   ⟨"Light distribution", lightDistributionOptions⟩,
   ⟨"Lamp Type", lampTypeOptions⟩]

/-- FilterSelection: a mapping from a group label to the set of selected
option strings, the shape of the `filters` state object of page.jsx line 18
(with absent keys read as the empty set). -/
def FilterSelection := String → Finset String

/-- The empty selection: the `useState(\x7b\x7d)` initial value of page.jsx
line 18, under which every label maps to the empty set. -/
def emptySelection : FilterSelection := fun _ => ∅

/-- The component state of `Category`: the `filters` object and the
`showFilters` boolean (page.jsx lines 18-19). -/
structure CategoryState where
  filters : FilterSelection
  showFilters : Bool

/-- The initial state: `useState(\x7b\x7d)` and `useState(false)`. -/
def initialState : CategoryState := ⟨emptySelection, false⟩

/-- `toggleFilters` of page.jsx line 21: `setShowFilters(prev => !prev)`.
It writes only the `showFilters` field. -/
def toggleFilters (s : CategoryState) : CategoryState :=
  ⟨s.filters, !s.showFilters⟩

/-- One rendered product card of the grid (page.jsx lines 97-107): the link
target, the image URL and the title text. -/
structure Card where
  href : String
  image : String
  title : String
deriving DecidableEq, Repr

/-- The product grid of page.jsx lines 96-109: it maps over
`lightingProducts` unconditionally, producing one card per catalog entry in
catalog order; the component state is in scope but never consulted. -/
def renderGrid (_s : CategoryState) : List Card :=
  lightingProducts.map fun p => ⟨"/products/category/objects/", p.image, p.name⟩

/-- The results count of page.jsx line 95: `lightingProducts.length`,
independent of the component state. -/
def resultsCount (_s : CategoryState) : Nat := lightingProducts.length

/-- The user events the rendered page wires to handlers: the mobile filter
button (onClick, page.jsx line 31) and a click on any rendered checkbox
(which has no change handler in the source, lines 47, 54, 61, 71, 78, 85). -/
inductive Event where
  | filterButtonClick : Event
  | checkboxClick (group : String) (opt : String) : Event
deriving DecidableEq, Repr

/-- The transition function of the Category component: the filter button
runs `toggleFilters`; a checkbox click runs no handler and leaves the state
unchanged. -/
def step (s : CategoryState) : Event → CategoryState
  | Event.filterButtonClick => toggleFilters s
  | Event.checkboxClick _ _ => s

/-- States reachable from the initial state by user events. -/
inductive Reachable : CategoryState → Prop where
  | init : Reachable initialState
  | next : ∀ (s : CategoryState) (e : Event), Reachable s → Reachable (step s e)

/-- Modelled from the spec: `toggleOption(group, option)` of the Filter State
Controller is absent from the source (the checkboxes carry no handler); the
spec defines it as flipping the membership of the option in the selected set
for the group, adding the option when absent even if no group lists it. -/
def toggleOption (sel : FilterSelection) (group opt : String) : FilterSelection :=
  fun label =>
    if label = group then
      if opt ∈ sel group then (sel group).erase opt else insert opt (sel group)
    else sel label

/-- Modelled from the spec: `toggleOption` lifted to the component state; it
writes only the `filters` field. -/
def toggleOptionState (s : CategoryState) (group opt : String) : CategoryState :=
  ⟨toggleOption s.filters group opt, s.showFilters⟩

/-- Modelled from the spec: `visibleProducts(allProducts, selection)` is
absent from the source (the grid renders the whole catalog); the spec defines
it as keeping a product iff, for every group with a non-empty selected set,
the product attribute for that group intersects the selected set, the
attribute model itself being absent from the source and taken here as a
parameter. -/
def visibleProducts (attr : Product → String → Finset String)
    (allProducts : List Product) (sel : FilterSelection) : List Product :=
  allProducts.filter fun p =>
    filterGroups.all fun g =>
      decide (sel g.label = ∅) || decide (attr p g.label ∩ sel g.label ≠ ∅)

lemma step_filters_eq (s : CategoryState) (e : Event) : (step s e).filters = s.filters := by
  cases e <;> rfl

lemma reachable_filters_empty (s : CategoryState) (h : Reachable s) :
    s.filters = emptySelection := by
  induction h with
  | init => rfl
  | next s e _ ih => rw [step_filters_eq, ih]

/-- C1: toggleOption is an involution on FilterSelection, and a single call
flips the membership of the option in the selected set for the group. -/
theorem toggleOption_involutive_and_flips (sel : FilterSelection) (group opt : String) :
    toggleOption (toggleOption sel group opt) group opt = sel ∧
    (opt ∈ toggleOption sel group opt group ↔ opt ∉ sel group) := by
  have hg : toggleOption sel group opt group =
      if opt ∈ sel group then (sel group).erase opt else insert opt (sel group) := by
    simp [toggleOption]
  constructor
  · funext label
    by_cases hl : label = group
    · subst hl
      by_cases hmem : opt ∈ sel label
      · simp [toggleOption, hmem, Finset.not_mem_erase, Finset.insert_erase]
      · simp [toggleOption, hmem, Finset.erase_insert]
    · simp [toggleOption, hl]
  · rw [hg]
    by_cases hmem : opt ∈ sel group
    · simp [hmem]
    · simp [hmem]

/-- C4: toggleDrawer (named toggleFilters in the source) is its own inverse:
two calls restore the state, and one call flips the drawer flag. -/
theorem toggleFilters_involutive (s : CategoryState) :
    toggleFilters (toggleFilters s) = s ∧
    (toggleFilters s).showFilters = !s.showFilters := by
  cases s with
  | mk f d => constructor
              · simp [toggleFilters]
              · rfl

/-- C5: toggleDrawer never changes FilterSelection and toggleOption never
changes DrawerState; in particular an open-close drawer cycle leaves the
selection exactly as before. -/
theorem drawer_selection_independent (s : CategoryState) (group opt : String) :
    (toggleFilters s).filters = s.filters ∧
    (toggleOptionState s group opt).showFilters = s.showFilters ∧
    (toggleFilters (toggleFilters s)).filters = s.filters := by
  exact ⟨rfl, rfl, rfl⟩

/-- C2: when every filter group has an empty selected set, visibleProducts
returns the full catalog in the original catalog order, for any catalog and
any attribute model. -/
theorem visibleProducts_empty_selection (attr : Product → String → Finset String)
    (allProducts : List Product) (sel : FilterSelection)
    (h : ∀ g ∈ filterGroups, sel g.label = ∅) :
    visibleProducts attr allProducts sel = allProducts := by
  unfold visibleProducts
  apply List.filter_eq_self.mpr
  intro p _
  apply List.all_eq_true.mpr
  intro g hg
  simp [h g hg]

/-- C2 witness: with the empty selection, the actual seven-product catalog is
returned whole. -/
theorem visibleProducts_empty_selection_witness :
    visibleProducts (fun _ _ => ∅) lightingProducts emptySelection = lightingProducts :=
  visibleProducts_empty_selection (fun _ _ => ∅) lightingProducts emptySelection
    (fun _ _ => rfl)

/-- C3: the rendered product grid does not depend on the component state:
any two states, in particular one selecting LED under Lamp Type and the
empty-selection initial state, yield the same card list, which always covers
the whole catalog. -/
theorem renderGrid_state_independent (s t : CategoryState) :
    renderGrid s = renderGrid t ∧
    renderGrid ⟨toggleOption emptySelection "Lamp Type" "LED", false⟩ =
      renderGrid initialState ∧
    (renderGrid s).length = lightingProducts.length := by
  refine ⟨rfl, rfl, ?_⟩
  simp [renderGrid]

/-- C6: the drawer is a two-state machine over the booleans: initially
closed, the filter button flips closed to open and open to closed, any event
that changes the drawer flag is the filter button, and every reachable state
has the flag closed or open. -/
theorem drawer_two_state_machine :
    initialState.showFilters = false ∧
    (∀ s : CategoryState, (step s Event.filterButtonClick).showFilters = !s.showFilters) ∧
    (∀ (s : CategoryState) (e : Event),
      (step s e).showFilters ≠ s.showFilters → e = Event.filterButtonClick) ∧
    (∀ s : CategoryState, Reachable s →
      s.showFilters = false ∨ s.showFilters = true) := by
  refine ⟨rfl, fun _ => rfl, ?_, ?_⟩
  · intro s e h
    cases e with
    | filterButtonClick => rfl
    | checkboxClick g o => exact absurd rfl h
  · intro s _
    rcases Bool.eq_false_or_eq_true s.showFilters with h | h
    · exact Or.inr h
    · exact Or.inl h

/-- C6 witness: the filter button changes the flag at the initial state, and
the initial state is one of the two drawer states. -/
theorem drawer_two_state_machine_witness :
    Event.filterButtonClick = Event.filterButtonClick ∧
    (initialState.showFilters = false ∨ initialState.showFilters = true) :=
  ⟨drawer_two_state_machine.2.2.1 initialState Event.filterButtonClick (by decide),
   drawer_two_state_machine.2.2.2 initialState Reachable.init⟩

/-- C7: at the initial state the grid shows exactly the seven catalog
products, in listed order, first titled Spot Down Series and last titled
Profile Series. -/
theorem initial_grid_seven_products :
    (renderGrid initialState).length = 7 ∧
    (renderGrid initialState).map Card.title = lightingProducts.map Product.name ∧
    lightingProducts.map Product.name =
      ["Spot Down Series", "Tracks System", "Modular Series",
       "Panel & General Lighting", "Pendant Series", "Ceiling Surface Series",
       "Profile Series"] ∧
    ((renderGrid initialState).map Card.title).head? = some "Spot Down Series" ∧
    ((renderGrid initialState).map Card.title).getLast? = some "Profile Series" :=
  ⟨rfl, rfl, rfl, rfl, rfl⟩

/-- C8: in every reachable state, every selected option of each filter group
belongs to that group's option list. -/
theorem reachable_selection_subset (s : CategoryState) (h : Reachable s)
    (g : FilterGroup) (_hg : g ∈ filterGroups) :
    s.filters g.label ⊆ g.options.toFinset := by
  rw [reachable_filters_empty s h]
  intro o ho
  simp [emptySelection] at ho

/-- C8 witness: the invariant instantiated at the initial state and the Lamp
Type group. -/
theorem reachable_selection_subset_witness :
    initialState.filters "Lamp Type" ⊆ lampTypeOptions.toFinset :=
  reachable_selection_subset initialState Reachable.init
    ⟨"Lamp Type", lampTypeOptions⟩ (by decide)

/-- C9: every controller operation is total: toggling an option, toggling the
drawer, stepping on any event and computing the visible list each yield a
result on every input; toggling an option absent from the selection, even one
unknown to every group, simply adds it to the selected set. -/
theorem controller_operations_total :
    (∀ (sel : FilterSelection) (group opt : String), ∃ r, toggleOption sel group opt = r) ∧
    (∀ s : CategoryState, ∃ r, toggleFilters s = r) ∧
    (∀ (s : CategoryState) (e : Event), ∃ r, step s e = r) ∧
    (∀ (attr : Product → String → Finset String) (ps : List Product)
       (sel : FilterSelection), ∃ r, visibleProducts attr ps sel = r) ∧
    (∀ (sel : FilterSelection) (group opt : String), opt ∉ sel group →
       toggleOption sel group opt group = insert opt (sel group)) := by
  refine ⟨fun sel g o => ⟨_, rfl⟩, fun s => ⟨_, rfl⟩, fun s e => ⟨_, rfl⟩,
    fun attr ps sel => ⟨_, rfl⟩, ?_⟩
  intro sel group opt h
  simp [toggleOption, h]

/-- C9 witness: toggling HALOGEN, an option no group lists, on the empty
selection adds it to the Lamp Type selected set. -/
theorem controller_operations_total_witness :
    toggleOption emptySelection "Lamp Type" "HALOGEN" "Lamp Type" =
      insert "HALOGEN" (emptySelection "Lamp Type") :=
  controller_operations_total.2.2.2.2 emptySelection "Lamp Type" "HALOGEN" (by decide)

/-- C10: no event handler updates the filters state: every step preserves it,
every reachable state carries the empty selection, and the rendered results
count always equals both the catalog length and the number of rendered
cards. -/
theorem filters_never_updated :
    (∀ (s : CategoryState) (e : Event), (step s e).filters = s.filters) ∧
    (∀ s : CategoryState, Reachable s → s.filters = emptySelection) ∧
    (∀ s : CategoryState, resultsCount s = lightingProducts.length ∧
       resultsCount s = (renderGrid s).length) := by
  refine ⟨step_filters_eq, reachable_filters_empty, ?_⟩
  intro s
  constructor
  · rfl
  · simp [resultsCount, renderGrid]

/-- C10 witness: the initial state carries the empty selection. -/
theorem filters_never_updated_witness :
    initialState.filters = emptySelection :=
  filters_never_updated.2.1 initialState Reachable.init

end Lytemaster
